import Mathlib

/-!
Verification of the sync-strategy decision engine
(awscli/customizations/s3/syncstrategy/base.py).

The Python classes are embedded shallowly:

* a FileStat record becomes the structure FileStat; a file absent on one
  side is Option.none;
* a strategy object carries only its static configuration (sync_type,
  include_acl, ARGUMENT), so it becomes the structure Strategy, and each
  concrete class's methods become functions taking that configuration;
* a Python method that can raise (ValueError on a bad sync_type,
  AttributeError when a None record is dereferenced) returns
  Except String;
* compare_time falls off the end of the function for an unknown
  operation_name, returning None in Python, hence Option Bool here;
* timestamps are integers counting microseconds; the difference of two
  datetimes is the Int delta, and total_seconds recombines the timedelta
  decomposition into exactly delta / 10^6 as a rational (float division
  by the positive constant 10^6 preserves the sign, which is all the
  comparisons read).
-/

/-- One entry of the Grants list of an ACL response: the grantee identity
and the Permission value (a missing Permission key reads as the empty
string via dict.get, so a plain String field covers every dict). -/
structure Grant where
  grantee_id : String
  permission : String
deriving DecidableEq

/-- The Owner part of an ACL response, carrying the ID field. -/
structure Owner where
  id : String
deriving DecidableEq

/-- The acl_response_data payload: the Owner and Grants fields read by
itemgetter in compare_acl. -/
structure AclData where
  owner : Owner
  grants : List Grant
deriving DecidableEq

/-- The fields of a FileStat record that the sync strategies read.
A record absent on one side is represented as Option.none at the call
sites, never as a FileStat with missing data. -/
structure FileStat where
  src : String
  dest : String
  size : Nat
  last_update : Int
  operation_name : String
  acl_response_data : Option AclData
deriving DecidableEq

/-- Response of sync determination (class SyncResponse). -/
structure SyncResponse where
  sync_object : Bool
  sync_acl : Bool
deriving DecidableEq

/-- SyncResponse.__bool__: truthy iff either component is set. -/
def SyncResponse.truthy (r : SyncResponse) : Bool :=
  r.sync_object || r.sync_acl

/-- The ARGUMENT descriptor of a strategy: a dict that may or may not
carry name and dest keys (read with dict.get, defaulting to None). -/
structure Argument where
  name : Option String
  dest : Option String
deriving DecidableEq

/-- The static configuration a BaseSync instance holds after
construction: its sync_type, its include_acl flag, and the class-level
ARGUMENT descriptor (None on BaseSync itself). -/
structure Strategy where
  sync_type : String
  include_acl : Bool
  ARGUMENT : Option Argument
deriving DecidableEq

/-- VALID_SYNC_TYPES from the module top level. -/
def VALID_SYNC_TYPES : List String :=
  ["file_at_src_and_dest", "file_not_at_dest", "file_not_at_src"]

/-- BaseSync._check_sync_type: raises ValueError on an unknown
sync_type. -/
def check_sync_type (sync_type : String) : Except String Unit :=
  if sync_type ∈ VALID_SYNC_TYPES then Except.ok ()
  else Except.error ("Unknown sync_type: " ++ sync_type)

/-- BaseSync.__init__: validates the sync_type, stores it, and
initialises include_acl to False. The class-level ARGUMENT descriptor of
the concrete class being constructed is passed alongside. -/
def BaseSync.init (sync_type : String) (argument : Option Argument) :
    Except String Strategy :=
  match check_sync_type sync_type with
  | Except.error e => Except.error e
  | Except.ok _ =>
      Except.ok { sync_type := sync_type, include_acl := false,
                  ARGUMENT := argument }

/-- BaseSync.arg_name: the name key of ARGUMENT, None when there is no
ARGUMENT or no name key. -/
def Strategy.arg_name (strat : Strategy) : Option String :=
  match strat.ARGUMENT with
  | none => none
  | some a => a.name

/-- BaseSync.arg_dest: the dest key of ARGUMENT, None when there is no
ARGUMENT or no dest key. -/
def Strategy.arg_dest (strat : Strategy) : Option String :=
  match strat.ARGUMENT with
  | none => none
  | some a => a.dest

/-- str.replace applied with a one-character pattern, as in
name.replace with the dash and underscore arguments: every dash
(code 45) becomes an underscore (code 95). -/
def replace_dashes (s : String) : String :=
  String.mk (s.data.map (fun c => if c = Char.ofNat 45 then Char.ofNat 95 else c))

/-- BaseSync.add_sync_argument: appends ARGUMENT to the externally owned
argument table when the strategy declares one. -/
def add_sync_argument (strat : Strategy) (arg_table : List Argument) :
    List Argument :=
  match strat.ARGUMENT with
  | none => arg_table
  | some a => arg_table ++ [a]

/-- BaseSync.use_sync_strategy: resolves the key under which the
strategy's flag lives in params (dest wins over name, name has dashes
replaced by underscores), then returns the strategy itself when
params.get of that key is truthy, None otherwise. params maps a key to
the Boolean stored for it, none for an absent key. -/
def use_sync_strategy (strat : Strategy) (params : String → Option Bool) :
    Option Strategy :=
  let name_in_params : Option String :=
    match strat.arg_dest with
    | some d => some d
    | none =>
        match strat.arg_name with
        | some n => some (replace_dashes n)
        | none => none
  match name_in_params with
  | some key => if (params key).getD false then some strat else none
  | none => none

/-- BaseSync.total_seconds applied to the timedelta between the two
timestamps: with td the difference in microseconds, the recombination
(microseconds + (seconds + days * 24 * 3600) * 10^6) equals td exactly,
and the final true division by 10^6 yields td / 10^6. -/
def total_seconds (td : Int) : Rat :=
  (td : Rat) / (10 ^ 6 : Rat)

/-- BaseSync.compare_size: True iff the sizes are the same. -/
def compare_size (src_file dest_file : FileStat) : Bool :=
  src_file.size == dest_file.size

/-- BaseSync.compare_time: True when the file does not need updating
based on last-modification time and the operation being performed; an
operation_name other than upload, copy or download falls off the end of
the Python function and yields None. -/
def compare_time (src_file dest_file : FileStat) : Option Bool :=
  let src_time := src_file.last_update
  let dest_time := dest_file.last_update
  let delta := dest_time - src_time
  let cmd := src_file.operation_name
  if cmd = "upload" ∨ cmd = "copy" then
    some (decide (total_seconds delta ≥ 0))
  else if cmd = "download" then
    some (decide (total_seconds delta ≤ 0))
  else
    none

/-- Modelled from the spec: separate_owner_grants, imported from
awscli.customizations.s3.utils and not part of this module's source,
partitions a grant list into the owner grants (grants whose grantee ID
equals the given owner ID) and the other grants (all remaining
grants). -/
def separate_owner_grants (grants : List Grant) (owner_id : String) :
    List Grant × List Grant :=
  (grants.filter (fun g => g.grantee_id = owner_id),
   grants.filter (fun g => ¬ g.grantee_id = owner_id))

/-- list.sort with the Permission value as key, as applied to the owner
grant lists in compare_acl (a stable sort by the permission string). -/
def sort_by_permission (grants : List Grant) : List Grant :=
  grants.mergeSort (fun a b => decide (a.permission ≤ b.permission))

/-- The body of BaseSync.compare_acl once both acl_response_data payloads
are present. are_equal starts False; the owner-grant comparison runs only
when both owner-grant lists are non-empty (Python list truthiness), and
requires equal length and pairwise equal Permission after sorting both by
Permission; the other-grant comparison runs only when are_equal already
holds, and requires equal length and membership of every source grant in
the destination list. -/
def compare_acl_data (src_acl dest_acl : AclData) : Bool :=
  let src_pair := separate_owner_grants src_acl.grants src_acl.owner.id
  let dest_pair := separate_owner_grants dest_acl.grants dest_acl.owner.id
  let are_equal : Bool :=
    if src_pair.1 ≠ [] ∧ dest_pair.1 ≠ [] then
      if src_pair.1.length = dest_pair.1.length then
        ((sort_by_permission src_pair.1).zip (sort_by_permission dest_pair.1)).all
          (fun p => p.1.permission == p.2.permission)
      else false
    else false
  if are_equal then
    if src_pair.2.length = dest_pair.2.length then
      src_pair.2.all (fun g => dest_pair.2.contains g)
    else false
  else false

/-- BaseSync.compare_acl: True immediately when either side's
acl_response_data is falsy (absent), otherwise the full comparison. -/
def compare_acl (src_file dest_file : FileStat) : Bool :=
  match src_file.acl_response_data, dest_file.acl_response_data with
  | none, _ => true
  | _, none => true
  | some src_acl, some dest_acl => compare_acl_data src_acl dest_acl

/-- Python truthiness negation applied to the value compare_time
produced: not None is True, not b negates the Boolean. -/
def py_not : Option Bool → Bool
  | none => true
  | some b => !b

/-- SizeAndLastModifiedSync._determine_should_sync on two present
records: transfer iff not same size or not same time (Python not applied
to compare_time's possibly-None result), and sync the ACL iff include_acl
is set and the ACLs compare unequal. -/
def SizeAndLastModifiedSync.determine_should_sync_present
    (src_file dest_file : FileStat) (include_acl : Bool) : SyncResponse :=
  let same_size := compare_size src_file dest_file
  let same_last_modified_time := compare_time src_file dest_file
  let object_should_sync := !same_size || py_not same_last_modified_time
  let acl_should_sync :=
    if include_acl then !(compare_acl src_file dest_file) else false
  { sync_object := object_should_sync, sync_acl := acl_should_sync }

/-- SizeAndLastModifiedSync's determine_should_sync (the BaseSync entry
point passing the configured include_acl): compare_size dereferences
both records first, so an absent record on either side raises
AttributeError. -/
def SizeAndLastModifiedSync.determine_should_sync (strat : Strategy)
    (src_file dest_file : Option FileStat) : Except String SyncResponse :=
  match src_file, dest_file with
  | some s, some d =>
      Except.ok
        (SizeAndLastModifiedSync.determine_should_sync_present s d
          strat.include_acl)
  | _, _ => Except.error "AttributeError: NoneType has no attribute size"

/-- NeverSync's determine_should_sync: returns SyncResponse(False, False)
without reading either record. -/
def NeverSync.determine_should_sync (_strat : Strategy)
    (_src_file _dest_file : Option FileStat) : Except String SyncResponse :=
  Except.ok { sync_object := false, sync_acl := false }

/-- MissingFileSync's determine_should_sync: the debug log line
dereferences src_file.src first, so an absent source record raises
AttributeError; otherwise the decision is always
SyncResponse(True, include_acl). -/
def MissingFileSync.determine_should_sync (strat : Strategy)
    (src_file _dest_file : Option FileStat) : Except String SyncResponse :=
  match src_file with
  | some _ => Except.ok { sync_object := true, sync_acl := strat.include_acl }
  | none => Except.error "AttributeError: NoneType has no attribute src"

/-! Helper lemmas. -/

theorem total_seconds_nonneg (td : Int) : 0 ≤ total_seconds td ↔ 0 ≤ td := by
  unfold total_seconds
  rw [le_div_iff₀ (by norm_num : (0:Rat) < 10 ^ 6)]
  simp

theorem total_seconds_nonpos (td : Int) : total_seconds td ≤ 0 ↔ td ≤ 0 := by
  unfold total_seconds
  rw [div_le_iff₀ (by norm_num : (0:Rat) < 10 ^ 6)]
  simp

theorem zip_self_all_perm (l : List Grant) :
    (l.zip l).all (fun p => p.1.permission == p.2.permission) = true := by
  induction l with
  | nil => rfl
  | cons a t ih => simp_all [List.zip]

theorem all_contains_self (l : List Grant) :
    l.all (fun g => l.contains g) = true := by
  rw [List.all_eq_true]
  intro g hg
  simpa using hg

theorem compare_acl_data_refl (a : AclData)
    (h : (separate_owner_grants a.grants a.owner.id).1 ≠ []) :
    compare_acl_data a a = true := by
  simp [compare_acl_data, h, zip_self_all_perm, all_contains_self]

/-! Claim theorems. -/

/-- Claim C1, counterexample: a record whose ACL data is present but whose
grant list contains no grant for the owner (the single grantee differs
from the owner ID) compares unequal to itself, because are_equal starts
False and the owner-grant comparison is skipped when an owner-grant list
is empty. -/
theorem compare_acl_not_refl_without_owner_grants :
    compare_acl
      (FileStat.mk "k" "k2" 100 0 "upload"
        (some (AclData.mk (Owner.mk "owner-id")
          [Grant.mk "someone-else" "READ"])))
      (FileStat.mk "k" "k2" 100 0 "upload"
        (some (AclData.mk (Owner.mk "owner-id")
          [Grant.mk "someone-else" "READ"]))) = false := by
  decide

/-- Claim C1, amended: compare_acl is reflexive on every record whose
acl_response_data is present and whose grant list contains at least one
grant for the owner (a non-empty owner-grant partition). -/
theorem compare_acl_refl_with_owner_grants (f : FileStat) (acl : AclData)
    (hf : f.acl_response_data = some acl)
    (h : (separate_owner_grants acl.grants acl.owner.id).1 ≠ []) :
    compare_acl f f = true := by
  simp [compare_acl, hf, compare_acl_data_refl acl h]

/-- Claim C1, witness for the amended theorem at a concrete record whose
single grant belongs to the owner. -/
theorem compare_acl_refl_with_owner_grants_witness :
    compare_acl
      (FileStat.mk "k" "k2" 100 0 "upload"
        (some (AclData.mk (Owner.mk "o") [Grant.mk "o" "FULL_CONTROL"])))
      (FileStat.mk "k" "k2" 100 0 "upload"
        (some (AclData.mk (Owner.mk "o") [Grant.mk "o" "FULL_CONTROL"]))) = true :=
  compare_acl_refl_with_owner_grants _ _ rfl (by decide)

/-- Claim C2, counterexample: NeverSync's determine_should_sync with both
records absent succeeds with the default SyncResponse(False, False)
instead of failing. -/
theorem never_sync_both_absent_returns_default :
    NeverSync.determine_should_sync
      (Strategy.mk "file_not_at_src" false none) none none =
      Except.ok (SyncResponse.mk false false) := rfl

/-- Claim C2, amended: with both records absent, SizeAndLastModifiedSync
and MissingFileSync fail fast with an error (an attribute access on the
absent record), but NeverSync returns the default
SyncResponse(False, False) without error. -/
theorem both_absent_behaviour (strat : Strategy) :
    NeverSync.determine_should_sync strat none none =
      Except.ok (SyncResponse.mk false false) ∧
    (∃ e, SizeAndLastModifiedSync.determine_should_sync strat none none =
      Except.error e) ∧
    (∃ e, MissingFileSync.determine_should_sync strat none none =
      Except.error e) :=
  ⟨rfl, ⟨_, rfl⟩, ⟨_, rfl⟩⟩

/-- Claim C3: on present records, SizeAndLastModifiedSync's
should-transfer component equals not compare_size or not compare_time
(whenever compare_time produces a Boolean), and differing sizes force a
transfer decision regardless of the timestamps. -/
theorem size_and_time_formula (s d : FileStat) (incl : Bool) :
    (∀ t, compare_time s d = some t →
      (SizeAndLastModifiedSync.determine_should_sync_present s d incl).sync_object =
        (!compare_size s d || !t)) ∧
    (s.size ≠ d.size →
      (SizeAndLastModifiedSync.determine_should_sync_present s d incl).sync_object =
        true) := by
  constructor
  · intro t ht
    simp [SizeAndLastModifiedSync.determine_should_sync_present, ht, py_not]
  · intro hne
    simp [SizeAndLastModifiedSync.determine_should_sync_present, compare_size, hne]

/-- Claim C3, witness: differing sizes (1 versus 2) force
should-transfer at a concrete pair. -/
theorem size_and_time_formula_witness :
    (SizeAndLastModifiedSync.determine_should_sync_present
      (FileStat.mk "a" "b" 1 0 "upload" none)
      (FileStat.mk "a" "b" 2 0 "upload" none) false).sync_object = true :=
  (size_and_time_formula
    (FileStat.mk "a" "b" 1 0 "upload" none)
    (FileStat.mk "a" "b" 2 0 "upload" none) false).2 (by decide)

/-- Claim C4: for upload and copy operations compare_time returns True
exactly when the destination timestamp minus the source timestamp is
non-negative, and for download exactly when that difference is
non-positive. -/
theorem compare_time_polarity (s d : FileStat) :
    ((s.operation_name = "upload" ∨ s.operation_name = "copy") →
      (compare_time s d = some true ↔ 0 ≤ d.last_update - s.last_update)) ∧
    (s.operation_name = "download" →
      (compare_time s d = some true ↔ d.last_update - s.last_update ≤ 0)) := by
  constructor
  · intro h
    rcases h with h | h <;>
      simp [compare_time, h, ge_iff_le, total_seconds_nonneg]
  · intro h
    simp [compare_time, h, total_seconds_nonpos]

/-- Claim C4, witness: the upload polarity instantiated at concrete
timestamps 5 and 9. -/
theorem compare_time_polarity_witness :
    compare_time (FileStat.mk "a" "b" 1 5 "upload" none)
        (FileStat.mk "a" "b" 1 9 "upload" none) = some true ↔
      (0 : Int) ≤ (FileStat.mk "a" "b" 1 9 "upload" none).last_update -
        (FileStat.mk "a" "b" 1 5 "upload" none).last_update :=
  (compare_time_polarity (FileStat.mk "a" "b" 1 5 "upload" none)
    (FileStat.mk "a" "b" 1 9 "upload" none)).1 (Or.inl rfl)

/-- Claim C5: compare_acl returns True whenever either side's
acl_response_data is absent. -/
theorem compare_acl_missing_data (s d : FileStat)
    (h : s.acl_response_data = none ∨ d.acl_response_data = none) :
    compare_acl s d = true := by
  cases hs : s.acl_response_data <;> cases hd : d.acl_response_data <;>
    simp_all [compare_acl]

/-- Claim C5, witness: concrete pair with ACL data absent on the source
side only. -/
theorem compare_acl_missing_data_witness :
    compare_acl (FileStat.mk "a" "b" 1 0 "upload" none)
      (FileStat.mk "a" "b" 1 0 "upload"
        (some (AclData.mk (Owner.mk "o") [Grant.mk "o" "READ"]))) = true :=
  compare_acl_missing_data _ _ (Or.inl rfl)

/-- Claim C6: NeverSync's decision is SyncResponse(False, False) for
every configuration and every pair of present-or-absent records. -/
theorem never_sync_always_false (strat : Strategy)
    (src_file dest_file : Option FileStat) :
    NeverSync.determine_should_sync strat src_file dest_file =
      Except.ok (SyncResponse.mk false false) := rfl

/-- Claim C7: MissingFileSync on a present source and absent destination
always decides to transfer, with the ACL component equal to the
strategy's configured include_acl flag. -/
theorem missing_file_sync_decision (strat : Strategy) (s : FileStat) :
    MissingFileSync.determine_should_sync strat (some s) none =
      Except.ok (SyncResponse.mk true strat.include_acl) := rfl

/-- Claim C8: construction succeeds with the supplied sync_type bound
exactly when the sync_type lies in VALID_SYNC_TYPES, and fails with an
error exactly when it does not. -/
theorem base_sync_init_validates (t : String) (arg : Option Argument) :
    (t ∈ VALID_SYNC_TYPES →
      ∃ s, BaseSync.init t arg = Except.ok s ∧ s.sync_type = t) ∧
    (t ∉ VALID_SYNC_TYPES →
      ∃ e, BaseSync.init t arg = Except.error e) := by
  constructor
  · intro h
    refine ⟨{ sync_type := t, include_acl := false, ARGUMENT := arg }, ?_, rfl⟩
    simp [BaseSync.init, check_sync_type, h]
  · intro h
    refine ⟨"Unknown sync_type: " ++ t, ?_⟩
    simp [BaseSync.init, check_sync_type, h]

/-- Claim C8, witness: constructing with the first valid sync_type
succeeds and binds that sync_type. -/
theorem base_sync_init_validates_witness :
    ∃ s, BaseSync.init "file_at_src_and_dest" none = Except.ok s ∧
      s.sync_type = "file_at_src_and_dest" :=
  (base_sync_init_validates "file_at_src_and_dest" none).1 (by decide)

/-- Claim C9: a strategy declaring an argument with a name and no dest is
selected exactly when the params mapping binds the dash-to-underscore
translation of that name to True; a False or absent binding yields
none. -/
theorem use_sync_strategy_by_name (strat : Strategy) (a : Argument)
    (n : String) (params : String → Option Bool)
    (harg : strat.ARGUMENT = some a) (hname : a.name = some n)
    (hdest : a.dest = none) :
    (params (replace_dashes n) = some true →
      use_sync_strategy strat params = some strat) ∧
    ((params (replace_dashes n) = some false ∨
        params (replace_dashes n) = none) →
      use_sync_strategy strat params = none) := by
  constructor
  · intro h
    simp [use_sync_strategy, Strategy.arg_dest, Strategy.arg_name, harg,
      hname, hdest, h]
  · intro h
    rcases h with h | h <;>
      simp [use_sync_strategy, Strategy.arg_dest, Strategy.arg_name, harg,
        hname, hdest, h]

/-- Claim C9, witness: a strategy declaring the name my-flag is selected
under params binding my_flag to True. -/
theorem use_sync_strategy_by_name_witness :
    use_sync_strategy
      (Strategy.mk "file_at_src_and_dest" false
        (some (Argument.mk (some "my-flag") none)))
      (fun k => if k = "my_flag" then some true else none) =
      some (Strategy.mk "file_at_src_and_dest" false
        (some (Argument.mk (some "my-flag") none))) :=
  (use_sync_strategy_by_name _ _ "my-flag"
    (fun k => if k = "my_flag" then some true else none)
    rfl rfl rfl).1 (by decide)

/-- Claim C10: compare_time produces a Boolean for every record whose
operation_name is upload, copy or download, and produces no value at all
for any other operation_name. -/
theorem compare_time_totality (s d : FileStat) :
    ((s.operation_name = "upload" ∨ s.operation_name = "copy" ∨
        s.operation_name = "download") →
      ∃ b, compare_time s d = some b) ∧
    ((s.operation_name ≠ "upload" ∧ s.operation_name ≠ "copy" ∧
        s.operation_name ≠ "download") →
      compare_time s d = none) := by
  constructor
  · intro h
    rcases h with h | h | h <;> simp [compare_time, h]
  · intro h
    obtain ⟨h1, h2, h3⟩ := h
    simp [compare_time, h1, h2, h3]

/-- Claim C10, witness: a delete operation yields no time decision at a
concrete pair. -/
theorem compare_time_totality_witness :
    compare_time (FileStat.mk "a" "b" 1 0 "delete" none)
      (FileStat.mk "a" "b" 1 0 "delete" none) = none :=
  (compare_time_totality (FileStat.mk "a" "b" 1 0 "delete" none)
    (FileStat.mk "a" "b" 1 0 "delete" none)).2 (by decide)
